import Mathlib

/-!
Verification of the asset-relocation and output-layout logic of gltf/cli.py
(function main).  Paths are modelled in standardized POSIX form as an
absolute flag together with the list of path components; the filesystem is
the list of existing files; the side effects of the job (directory creation,
file copies, scene serialization) are recorded as an explicit effect list,
and failure is an Option-valued error.
-/

namespace GltfCli

/-- A standardized POSIX-style path: an absolute flag plus the list of path
components.  Models both the Python strings fed to os.path functions and the
panda3d Filename values appearing in gltf/cli.py. -/
structure FName where
  absolute : Bool
  comps : List String
deriving DecidableEq, Repr

/-- The empty filename.  A texture whose filename is empty is falsy in the
list comprehension of gltf/cli.py and is excluded from relocation. -/
def emptyF : FName := ⟨false, []⟩

/-- Models os.path.join(base, f) on POSIX, as used for texsrc and texdst in
gltf/cli.py: an absolute second argument discards the base, otherwise the
components of f are appended to those of base. -/
def osJoin (base f : FName) : FName :=
  if f.absolute then f else ⟨base.absolute, base.comps ++ f.comps⟩

/-- Models os.path.dirname and panda3d Filename.get_dirname: drop the final
component. -/
def dirOf (f : FName) : FName := ⟨f.absolute, f.comps.dropLast⟩

/-- Length of the longest common run of leading components of two component
lists. -/
def commonLen : List String → List String → Nat
  | a :: as, b :: bs => if a = b then commonLen as bs + 1 else 0
  | _, _ => 0

/-- The number of components panda3d Filename.make_relative_to treats as
shared between the filename and the directory: the common leading run,
except that a run consuming the whole filename is shortened by one, because
the character-level common run must stop at a slash strictly inside the
filename string. -/
def relCommon (f dir : FName) : Nat :=
  let k0 := commonLen f.comps dir.comps
  if k0 = f.comps.length then k0 - 1 else k0

/-- Models panda3d Filename.make_relative_to(directory) with backups
allowed, the relpath.makeRelativeTo(assets_dir) call of gltf/cli.py, on
standardized paths.  Both paths must be nonempty and absolute and at least
one leading component must be shared; otherwise the filename is returned
unchanged and no error of any kind is signalled.  On success the result is
relative, with one dot-dot component for each unshared directory
component. -/
def makeRelativeTo (f dir : FName) : FName :=
  if f.comps = [] ∨ dir.comps = [] ∨ f.absolute = false ∨ dir.absolute = false then f
  else
    let k := relCommon f dir
    if k = 0 then f
    else ⟨false, List.replicate (dir.comps.length - k) ".." ++ f.comps.drop k⟩

/-- The two values of the --textures flag of gltf/cli.py. -/
inductive TexMode where
  | ref
  | copy
deriving DecidableEq, Repr

/-- The three values of the --animations flag of gltf/cli.py. -/
inductive AnimMode where
  | embed
  | separate
  | skip
deriving DecidableEq, Repr

/-- Observable filesystem side effects of the conversion job: directory
creation (os.makedirs), a texture file copy (shutil.copy), and a scene
serialization (write_bam_file). -/
inductive Effect where
  | mkdirs : FName → Effect
  | copyFile : FName → FName → Effect
  | writeBam : FName → Effect
deriving DecidableEq, Repr

/-- The error raised when shutil.copy is handed a source file that does not
exist; it carries the resolved source path. -/
inductive JobError where
  | fileNotFound : FName → JobError
deriving DecidableEq, Repr

/-- Result of one iteration of the texture loop: the new value of the
texture filename field, the effects performed, the filesystem afterwards,
and the error if the copy failed. -/
structure StepOut where
  newName : FName
  effects : List Effect
  fs : List FName
  error : Option JobError
deriving DecidableEq, Repr

/-- The body of the texture loop of gltf/cli.py (lines 153-171): compute
texsrc and texdst by joining the current filename onto the assets directory
and the output directory, rewrite the filename with makeRelativeTo, and if
the two joined paths differ create the destination parent directory and
copy; a missing source makes the copy raise.  If the paths coincide the
copy is skipped.  The filename rewrite happens before the copy attempt. -/
def relocBody (assetsDir outdir fname : FName) (fs : List FName) : StepOut :=
  let texsrc := osJoin assetsDir fname
  let texdst := osJoin outdir fname
  let relpath := makeRelativeTo fname assetsDir
  if texsrc ≠ texdst then
    if texsrc ∈ fs then
      ⟨relpath, [Effect.mkdirs (dirOf texdst), Effect.copyFile texsrc texdst],
        texdst :: fs, none⟩
    else
      ⟨relpath, [Effect.mkdirs (dirOf texdst)], fs,
        some (JobError.fileNotFound texsrc)⟩
  else
    ⟨relpath, [], fs, none⟩

/-- One iteration of the texture loop including the mode guard of line 162:
the body runs when the textures flag is copy or ref, which covers both
possible values of the flag. -/
def relocStep (mode : TexMode) (assetsDir outdir fname : FName) (fs : List FName) : StepOut :=
  if mode = TexMode.copy ∨ mode = TexMode.ref then relocBody assetsDir outdir fname fs
  else ⟨fname, [], fs, none⟩

/-- Pointwise update of the shared texture store: assigning the filename
field of the texture object with identity i. -/
def updStore (store : Nat → FName) (i : Nat) (f : FName) : Nat → FName :=
  fun j => if j = i then f else store j

/-- Result of the texture loop: the texture store after the in-place
rewrites, the filesystem, the accumulated effects, and the error if the
loop aborted. -/
structure LoopOut where
  store : Nat → FName
  fs : List FName
  effects : List Effect
  error : Option JobError

/-- The texture loop of gltf/cli.py: each listed texture identity is read
from the shared store, processed by relocStep, and its filename field is
rewritten in the store; a copy failure aborts the loop at once. -/
def relocLoop (mode : TexMode) (assetsDir outdir : FName) :
    List Nat → (Nat → FName) → List FName → List Effect → LoopOut
  | [], store, fs, effs => ⟨store, fs, effs, none⟩
  | i :: rest, store, fs, effs =>
    let s := relocStep mode assetsDir outdir (store i) fs
    match s.error with
    | some e => ⟨updStore store i s.newName, s.fs, effs ++ s.effects, some e⟩
    | none => relocLoop mode assetsDir outdir rest (updStore store i s.newName) s.fs
        (effs ++ s.effects)

/-- The texture list comprehension of gltf/cli.py (lines 145-150): only
textures with a truthy, that is nonempty, filename are kept, judged against
the store before the loop runs. -/
def keptTextures (texIds : List Nat) (store : Nat → FName) : List Nat :=
  texIds.filter (fun i => decide (store i ≠ emptyF))

/-- Splits a character list at its last dot: some (before, after) when a dot
occurs, none otherwise. -/
def lastDotSplit : List Char → Option (List Char × List Char)
  | [] => none
  | c :: rest =>
    match lastDotSplit rest with
    | some (b, a) => some (c :: b, a)
    | none => if c = '.' then some ([], rest) else none

/-- Models the Python expression s.rsplit(sep, 1)[0] with a dot separator,
as applied to the whole source path string on line 119 of gltf/cli.py. -/
def rsplitDotHead (s : String) : String :=
  match lastDotSplit s.data with
  | some (b, _) => String.mk b
  | none => s

/-- The default destination of line 119: the source string cut at its last
dot, with the bam extension appended. -/
def defaultDst (src : String) : String := rsplitDotHead src ++ ".bam"

/-- Splits a basename into stem and extension at its last dot, matching
panda3d get_fullpath_wo_extension and get_extension on the basename. -/
def splitExt (s : String) : String × String :=
  match lastDotSplit s.data with
  | some (b, a) => (String.mk b, String.mk a)
  | none => (s, "")

/-- The per-bundle artifact path of lines 176-178: the destination path
without its extension, an underscore, the bundle name, a dot, and the
destination extension. -/
def animArtifact (dst : FName) (name : String) : FName :=
  match dst.comps.getLast? with
  | none => ⟨dst.absolute, ["_" ++ name ++ "."]⟩
  | some b =>
    let p := splitExt b
    ⟨dst.absolute, dst.comps.dropLast ++ [p.1 ++ "_" ++ name ++ "." ++ p.2]⟩

/-- Result of the whole conversion job run: final texture store, final
filesystem, effect list, and error. -/
structure JobOut where
  store : Nat → FName
  fs : List FName
  effects : List Effect
  error : Option JobError

/-- The post-conversion part of main in gltf/cli.py: create the output
directory, run the texture relocation loop over the textures with nonempty
filenames, then, when the animation mode is separate, write one bam
artifact per discovered animation bundle in discovery order, and finally
write the main scene artifact.  A relocation failure aborts before any bam
write. -/
def runJob (mode : TexMode) (animMode : AnimMode) (assetsDir outdir dst : FName)
    (texIds : List Nat) (store : Nat → FName) (animNames : List String)
    (fs : List FName) : JobOut :=
  let lo := relocLoop mode assetsDir outdir (keptTextures texIds store) store fs
      [Effect.mkdirs outdir]
  match lo.error with
  | some e => ⟨lo.store, lo.fs, lo.effects, some e⟩
  | none =>
    ⟨lo.store, lo.fs,
      lo.effects
        ++ (if animMode = AnimMode.separate
            then animNames.map (fun n => Effect.writeBam (animArtifact dst n)) else [])
        ++ [Effect.writeBam dst],
      none⟩

/-- The bam-write artifact paths among a list of effects, in order. -/
def bamWrites (effs : List Effect) : List FName :=
  effs.filterMap (fun e => match e with | Effect.writeBam p => some p | _ => none)

/-- A scene node, holding references into the shared texture store. -/
structure SceneNode where
  texIds : List Nat
deriving DecidableEq, Repr

/-- The filename a node observes for texture identity i: defined exactly
when the node references that texture, and then read from the shared
store. -/
def nodeObserves (store : Nat → FName) (n : SceneNode) (i : Nat) : Option FName :=
  if i ∈ n.texIds then some (store i) else none

/-- The command-line inputs relevant to path resolution: the source string,
the destination string (empty when not supplied, the argparse default), and
the optional assets-dir string. -/
structure CliArgs where
  src : String
  dst : String
  assetsDirArg : Option String
deriving DecidableEq, Repr

/-- The resolved path set of a conversion job. -/
structure JobPaths where
  src : FName
  dst : FName
  assetsDir : FName
  indir : FName
  outdir : FName
deriving DecidableEq, Repr

/-- Parses a POSIX path string into the component model. -/
def parseFName (s : String) : FName :=
  ⟨s.startsWith "/", (s.split (fun c => c = '/')).filter (fun t => decide (t ≠ ""))⟩

/-- Models panda3d Filename.make_absolute on standardized paths: a relative
path is resolved against the current working directory. -/
def makeAbsolute (f cwd : FName) : FName :=
  if f.absolute then f else ⟨true, cwd.comps ++ f.comps⟩

/-- The path resolution of gltf/cli.py lines 115-130: the source is made
absolute; an unsupplied destination defaults to the source string cut at
its last dot with the bam extension; indir and outdir are the directories
of source and destination; an unsupplied or empty assets-dir defaults to
indir, and the result is made absolute. -/
def resolveJobPaths (args : CliArgs) (cwd : FName) : JobPaths :=
  let src := makeAbsolute (parseFName args.src) cwd
  let dstStr := if args.dst = "" then defaultDst args.src else args.dst
  let dst := makeAbsolute (parseFName dstStr) cwd
  let indir := dirOf src
  let outdir := dirOf dst
  let assets0 := match args.assetsDirArg with
    | none => indir
    | some s => if s = "" then indir else parseFName s
  ⟨src, dst, makeAbsolute assets0 cwd, indir, outdir⟩

/- ------------------------------------------------------------------ -/
/- Helper lemmas -/
/- ------------------------------------------------------------------ -/

lemma osJoin_absolute (b f : FName) (h : f.absolute = true) : osJoin b f = f := by
  simp [osJoin, h]

lemma makeRelativeTo_relative (f dir : FName) (h : f.absolute = false) :
    makeRelativeTo f dir = f := by
  simp [makeRelativeTo, h]

lemma relocStep_eq (mode : TexMode) (a o f : FName) (fs : List FName) :
    relocStep mode a o f fs = relocBody a o f fs := by
  cases mode <;> simp [relocStep]

lemma relocBody_self (a o f : FName) (fs : List FName) (h : osJoin a f = osJoin o f) :
    relocBody a o f fs = ⟨makeRelativeTo f a, [], fs, none⟩ := by
  simp [relocBody, h]

lemma relocBody_copy (a o f : FName) (fs : List FName)
    (h : osJoin a f ≠ osJoin o f) (hm : osJoin a f ∈ fs) :
    relocBody a o f fs = ⟨makeRelativeTo f a,
      [Effect.mkdirs (dirOf (osJoin o f)), Effect.copyFile (osJoin a f) (osJoin o f)],
      osJoin o f :: fs, none⟩ := by
  simp [relocBody, h, hm]

lemma relocBody_missing (a o f : FName) (fs : List FName)
    (h : osJoin a f ≠ osJoin o f) (hm : osJoin a f ∉ fs) :
    relocBody a o f fs = ⟨makeRelativeTo f a, [Effect.mkdirs (dirOf (osJoin o f))],
      fs, some (JobError.fileNotFound (osJoin a f))⟩ := by
  simp [relocBody, h, hm]

lemma relocStep_newName (mode : TexMode) (a o f : FName) (fs : List FName) :
    (relocStep mode a o f fs).newName = makeRelativeTo f a := by
  rw [relocStep_eq]
  by_cases h : osJoin a f = osJoin o f
  · rw [relocBody_self a o f fs h]
  · by_cases hm : osJoin a f ∈ fs
    · rw [relocBody_copy a o f fs h hm]
    · rw [relocBody_missing a o f fs h hm]

lemma bamWrites_append (xs ys : List Effect) :
    bamWrites (xs ++ ys) = bamWrites xs ++ bamWrites ys := by
  simp [bamWrites]

lemma relocBody_no_bam (a o f : FName) (fs : List FName) :
    bamWrites (relocBody a o f fs).effects = [] := by
  by_cases h : osJoin a f = osJoin o f
  · rw [relocBody_self a o f fs h]
    rfl
  · by_cases hm : osJoin a f ∈ fs
    · rw [relocBody_copy a o f fs h hm]
      rfl
    · rw [relocBody_missing a o f fs h hm]
      rfl

lemma relocLoop_bam (mode : TexMode) (a o : FName) :
    ∀ (ids : List Nat) (store : Nat → FName) (fs : List FName) (effs : List Effect),
      bamWrites (relocLoop mode a o ids store fs effs).effects = bamWrites effs
  | [], _, _, _ => rfl
  | j :: rest, store, fs, effs => by
    simp only [relocLoop, relocStep_eq]
    cases hE : (relocBody a o (store j) fs).error with
    | some e =>
      simp only [hE]
      rw [bamWrites_append, relocBody_no_bam]
      simp
    | none =>
      simp only [hE]
      rw [relocLoop_bam mode a o rest _ _ _, bamWrites_append, relocBody_no_bam]
      simp

lemma relocLoop_store_notmem (mode : TexMode) (a o : FName) :
    ∀ (ids : List Nat) (store : Nat → FName) (fs : List FName) (effs : List Effect) (i : Nat),
      i ∉ ids → (relocLoop mode a o ids store fs effs).store i = store i
  | [], _, _, _, _, _ => rfl
  | j :: rest, store, fs, effs, i, h => by
    have hij : i ≠ j := fun e => h (by simp [e])
    have hir : i ∉ rest := fun m => h (List.mem_cons_of_mem _ m)
    simp only [relocLoop]
    cases hE : (relocStep mode a o (store j) fs).error with
    | some e =>
      simp only [hE]
      simp [updStore, hij]
    | none =>
      simp only [hE]
      rw [relocLoop_store_notmem mode a o rest _ _ _ i hir]
      simp [updStore, hij]

lemma relocLoop_store_ok (mode : TexMode) (a o : FName) :
    ∀ (ids : List Nat) (store : Nat → FName) (fs : List FName) (effs : List Effect) (i : Nat),
      ids.Nodup → i ∈ ids → (relocLoop mode a o ids store fs effs).error = none →
      (relocLoop mode a o ids store fs effs).store i = makeRelativeTo (store i) a
  | [], _, _, _, i, _, hi, _ => absurd hi (List.not_mem_nil i)
  | j :: rest, store, fs, effs, i, hnd, hi, hok => by
    have hjrest : j ∉ rest := (List.nodup_cons.mp hnd).1
    have hndr : rest.Nodup := (List.nodup_cons.mp hnd).2
    cases hE : (relocStep mode a o (store j) fs).error with
    | some e =>
      exfalso
      simp only [relocLoop, hE] at hok
      exact Option.some_ne_none e hok
    | none =>
      simp only [relocLoop, hE] at hok ⊢
      by_cases hij : i = j
      · subst hij
        rw [relocLoop_store_notmem mode a o rest _ _ _ i hjrest]
        simp [updStore, relocStep_newName]
      · rw [relocLoop_store_ok mode a o rest _ _ _ i hndr
          ((List.mem_cons.mp hi).resolve_left hij) hok]
        simp [updStore, hij]

lemma relocLoop_error_missing (mode : TexMode) (a o : FName) :
    ∀ (ids : List Nat) (store : Nat → FName) (fs : List FName) (effs : List Effect) (i : Nat),
      ids.Nodup → i ∈ ids → osJoin a (store i) ∉ fs →
      (∀ j ∈ ids, osJoin a (store i) ≠ osJoin o (store j)) →
      ∃ p, (relocLoop mode a o ids store fs effs).error = some (JobError.fileNotFound p) ∧
        p ∉ fs
  | [], _, _, _, i, _, hi, _, _ => absurd hi (List.not_mem_nil i)
  | j :: rest, store, fs, effs, i, hnd, hi, hmiss, hdiff => by
    have hjrest : j ∉ rest := (List.nodup_cons.mp hnd).1
    have hndr : rest.Nodup := (List.nodup_cons.mp hnd).2
    by_cases hij : i = j
    · subst hij
      have hd := hdiff i (List.mem_cons_self i rest)
      simp only [relocLoop, relocStep_eq, relocBody_missing a o (store i) fs hd hmiss]
      exact ⟨osJoin a (store i), rfl, hmiss⟩
    · have hir : i ∈ rest := (List.mem_cons.mp hi).resolve_left hij
      have hsi : updStore store j (makeRelativeTo (store j) a) i = store i := by
        simp [updStore, hij]
      by_cases hsd : osJoin a (store j) = osJoin o (store j)
      · simp only [relocLoop, relocStep_eq, relocBody_self a o (store j) fs hsd]
        obtain ⟨p, hp, hpf⟩ := relocLoop_error_missing mode a o rest
          (updStore store j (makeRelativeTo (store j) a)) fs (effs ++ []) i hndr hir
          (by rw [hsi]; exact hmiss)
          (by
            intro m hm
            have hmj : m ≠ j := fun e => hjrest (e ▸ hm)
            rw [hsi, show updStore store j (makeRelativeTo (store j) a) m = store m
              from by simp [updStore, hmj]]
            exact hdiff m (List.mem_cons_of_mem _ hm))
        exact ⟨p, hp, hpf⟩
      · by_cases hsm : osJoin a (store j) ∈ fs
        · simp only [relocLoop, relocStep_eq, relocBody_copy a o (store j) fs hsd hsm]
          obtain ⟨p, hp, hpf⟩ := relocLoop_error_missing mode a o rest
            (updStore store j (makeRelativeTo (store j) a)) (osJoin o (store j) :: fs)
            (effs ++ [Effect.mkdirs (dirOf (osJoin o (store j))),
              Effect.copyFile (osJoin a (store j)) (osJoin o (store j))]) i hndr hir
            (by
              rw [hsi]
              intro hmem
              rcases List.mem_cons.mp hmem with h | h
              · exact hdiff j (List.mem_cons_self j rest) h
              · exact hmiss h)
            (by
              intro m hm
              have hmj : m ≠ j := fun e => hjrest (e ▸ hm)
              rw [hsi, show updStore store j (makeRelativeTo (store j) a) m = store m
                from by simp [updStore, hmj]]
              exact hdiff m (List.mem_cons_of_mem _ hm))
          exact ⟨p, hp, fun hmem => hpf (List.mem_cons_of_mem _ hmem)⟩
        · simp only [relocLoop, relocStep_eq, relocBody_missing a o (store j) fs hsd hsm]
          exact ⟨osJoin a (store j), rfl, hsm⟩

lemma relocLoop_mode (m1 m2 : TexMode) (a o : FName) :
    ∀ (ids : List Nat) (store : Nat → FName) (fs : List FName) (effs : List Effect),
      relocLoop m1 a o ids store fs effs = relocLoop m2 a o ids store fs effs
  | [], _, _, _ => rfl
  | j :: rest, store, fs, effs => by
    simp only [relocLoop, relocStep_eq]
    cases hE : (relocBody a o (store j) fs).error with
    | some e => simp only [hE]
    | none =>
      simp only [hE]
      exact relocLoop_mode m1 m2 a o rest _ _ _

lemma runJob_error (mode : TexMode) (animMode : AnimMode) (assetsDir outdir dst : FName)
    (texIds : List Nat) (store : Nat → FName) (animNames : List String) (fs : List FName) :
    (runJob mode animMode assetsDir outdir dst texIds store animNames fs).error
      = (relocLoop mode assetsDir outdir (keptTextures texIds store) store fs
          [Effect.mkdirs outdir]).error := by
  unfold runJob
  cases hE : (relocLoop mode assetsDir outdir (keptTextures texIds store) store fs
      [Effect.mkdirs outdir]).error <;> simp [hE]

lemma runJob_store (mode : TexMode) (animMode : AnimMode) (assetsDir outdir dst : FName)
    (texIds : List Nat) (store : Nat → FName) (animNames : List String) (fs : List FName) :
    (runJob mode animMode assetsDir outdir dst texIds store animNames fs).store
      = (relocLoop mode assetsDir outdir (keptTextures texIds store) store fs
          [Effect.mkdirs outdir]).store := by
  unfold runJob
  cases hE : (relocLoop mode assetsDir outdir (keptTextures texIds store) store fs
      [Effect.mkdirs outdir]).error <;> simp [hE]

lemma bamWrites_anim (dst : FName) (names : List String) :
    bamWrites (names.map fun n => Effect.writeBam (animArtifact dst n))
      = names.map fun n => animArtifact dst n := by
  induction names with
  | nil => rfl
  | cons n rest ih => simp [bamWrites, List.filterMap_cons] at ih ⊢; exact ih

lemma makeAbsolute_abs (f cwd : FName) (h : f.absolute = true) : makeAbsolute f cwd = f := by
  simp [makeAbsolute, h]

lemma makeAbsolute_isAbs (f cwd : FName) : (makeAbsolute f cwd).absolute = true := by
  cases hf : f.absolute <;> simp [makeAbsolute, hf]

lemma lastDotSplit_of_no_dot : ∀ cs : List Char, '.' ∉ cs → lastDotSplit cs = none
  | [], _ => rfl
  | c :: rest, h => by
    have hr : '.' ∉ rest := fun m => h (List.mem_cons_of_mem _ m)
    have hc : ¬(c = '.') := fun e => h (by simp [e])
    simp [lastDotSplit, lastDotSplit_of_no_dot rest hr, hc]

/- ------------------------------------------------------------------ -/
/- Claims -/
/- ------------------------------------------------------------------ -/

/-- Claim C1, counterexample.  The claim states that whenever some texture
filename resolved against the assets directory names a missing file, the
job fails and zero artifacts are written.  Here the assets directory equals
the output directory, the single texture tex.png resolves to a missing
source, yet the copy is skipped because the resolved source equals the
resolved destination: the job succeeds and the main scene artifact is
written. -/
theorem c1_counterexample :
    (runJob TexMode.ref AnimMode.embed ⟨true, ["out"]⟩ ⟨true, ["out"]⟩
        ⟨true, ["out", "model.bam"]⟩ [0] (fun _ => ⟨false, ["tex.png"]⟩) [] []).error = none
  ∧ Effect.writeBam ⟨true, ["out", "model.bam"]⟩
      ∈ (runJob TexMode.ref AnimMode.embed ⟨true, ["out"]⟩ ⟨true, ["out"]⟩
        ⟨true, ["out", "model.bam"]⟩ [0] (fun _ => ⟨false, ["tex.png"]⟩) [] []).effects
  ∧ osJoin ⟨true, ["out"]⟩ ⟨false, ["tex.png"]⟩ ∉ ([] : List FName) := by
  refine ⟨rfl, ?_, by decide⟩
  decide

/-- Claim C1, amended.  If some texture in the job has a nonempty declared
filename whose resolved source path is missing from the filesystem and is
distinct from the resolved destination path of every texture in the job,
then the run fails with a file-not-found error naming a path that did not
exist, and no scene or animation artifact is written; copies performed for
textures processed before the failing one are not rolled back, and a
missing source that coincides with its own destination is skipped without
any error. -/
theorem c1_amended_missing_asset (mode : TexMode) (animMode : AnimMode)
    (assetsDir outdir dst : FName) (texIds : List Nat) (store : Nat → FName)
    (animNames : List String) (fs : List FName) (i : Nat)
    (hnd : texIds.Nodup) (hi : i ∈ texIds) (hne : store i ≠ emptyF)
    (hmiss : osJoin assetsDir (store i) ∉ fs)
    (hdiff : ∀ j ∈ texIds, osJoin assetsDir (store i) ≠ osJoin outdir (store j)) :
    (∃ p, (runJob mode animMode assetsDir outdir dst texIds store animNames fs).error
        = some (JobError.fileNotFound p) ∧ p ∉ fs)
  ∧ bamWrites (runJob mode animMode assetsDir outdir dst texIds store animNames fs).effects
      = [] := by
  have hkept : i ∈ keptTextures texIds store := by
    simp [keptTextures, hi, hne]
  have hknd : (keptTextures texIds store).Nodup := hnd.filter _
  have hkdiff : ∀ j ∈ keptTextures texIds store,
      osJoin assetsDir (store i) ≠ osJoin outdir (store j) := by
    intro j hj
    exact hdiff j (List.mem_of_mem_filter hj)
  obtain ⟨p, hp, hpf⟩ := relocLoop_error_missing mode assetsDir outdir
    (keptTextures texIds store) store fs [Effect.mkdirs outdir] i hknd hkept hmiss hkdiff
  constructor
  · refine ⟨p, ?_, hpf⟩
    rw [runJob_error, hp]
  · unfold runJob
    simp only [hp]
    rw [relocLoop_bam]
    rfl

/-- Claim C1, witness for the amended theorem at a concrete job: one
texture tex.png, assets directory /a, output directory /b, empty
filesystem. -/
theorem c1_amended_missing_asset_witness :
    (∃ p, (runJob TexMode.ref AnimMode.embed ⟨true, ["a"]⟩ ⟨true, ["b"]⟩
        ⟨true, ["b", "model.bam"]⟩ [0] (fun _ => ⟨false, ["tex.png"]⟩) [] []).error
        = some (JobError.fileNotFound p) ∧ p ∉ ([] : List FName))
  ∧ bamWrites (runJob TexMode.ref AnimMode.embed ⟨true, ["a"]⟩ ⟨true, ["b"]⟩
      ⟨true, ["b", "model.bam"]⟩ [0] (fun _ => ⟨false, ["tex.png"]⟩) [] []).effects = [] :=
  c1_amended_missing_asset TexMode.ref AnimMode.embed ⟨true, ["a"]⟩ ⟨true, ["b"]⟩
    ⟨true, ["b", "model.bam"]⟩ [0] (fun _ => ⟨false, ["tex.png"]⟩) [] [] 0
    (by decide) (by decide) (by decide) (by decide) (by decide)

/-- Claim C2, counterexample.  The claim states that when the resolved
source path equals the resolved destination path, the declared filename is
still rewritten to its form relative to the assets directory.  The absolute
filename /data/tex.png with assets directory /a and output directory /b is
in that scope, because os.path.join discards the base for an absolute
second argument, so both resolved paths equal the filename itself and no
copy is performed; yet the filename after the step is the same absolute
path, not a path relative to the assets directory. -/
theorem c2_counterexample :
    osJoin ⟨true, ["a"]⟩ ⟨true, ["data", "tex.png"]⟩
        = osJoin ⟨true, ["b"]⟩ ⟨true, ["data", "tex.png"]⟩
  ∧ (relocStep TexMode.ref ⟨true, ["a"]⟩ ⟨true, ["b"]⟩
        ⟨true, ["data", "tex.png"]⟩ []).effects = []
  ∧ (relocStep TexMode.ref ⟨true, ["a"]⟩ ⟨true, ["b"]⟩
        ⟨true, ["data", "tex.png"]⟩ []).newName = ⟨true, ["data", "tex.png"]⟩
  ∧ ((relocStep TexMode.ref ⟨true, ["a"]⟩ ⟨true, ["b"]⟩
        ⟨true, ["data", "tex.png"]⟩ []).newName).absolute = true := by
  refine ⟨by decide, by decide, by decide, by decide⟩

/-- Claim C2, amended.  Joining equal assets and output directories yields
equal resolved paths; when the resolved source path equals the resolved
destination path the step performs no filesystem effect at all, yet the
declared filename is still reassigned to the makeRelativeTo rewrite
against the assets directory (a rewrite that leaves relative filenames,
and absolute filenames sharing no leading component with the assets
directory, unchanged); when the resolved paths differ and the source
exists, the step creates the destination parent directory and copies the
file bytes from source to destination. -/
theorem c2_self_copy_avoidance (mode : TexMode) (assetsDir outdir fname : FName)
    (fs : List FName) :
    (assetsDir = outdir → osJoin assetsDir fname = osJoin outdir fname)
  ∧ (osJoin assetsDir fname = osJoin outdir fname →
      relocStep mode assetsDir outdir fname fs
        = ⟨makeRelativeTo fname assetsDir, [], fs, none⟩)
  ∧ (osJoin assetsDir fname ≠ osJoin outdir fname → osJoin assetsDir fname ∈ fs →
      relocStep mode assetsDir outdir fname fs
        = ⟨makeRelativeTo fname assetsDir,
            [Effect.mkdirs (dirOf (osJoin outdir fname)),
             Effect.copyFile (osJoin assetsDir fname) (osJoin outdir fname)],
            osJoin outdir fname :: fs, none⟩) := by
  refine ⟨?_, ?_, ?_⟩
  · intro h
    rw [h]
  · intro h
    rw [relocStep_eq, relocBody_self _ _ _ _ h]
  · intro h hm
    rw [relocStep_eq, relocBody_copy _ _ _ _ h hm]

/-- Claim C2, witness for the amended theorem: the self-copy case with
assets directory equal to the output directory, and the copy case with
distinct directories and an existing source file. -/
theorem c2_self_copy_avoidance_witness :
    relocStep TexMode.ref ⟨true, ["out"]⟩ ⟨true, ["out"]⟩ ⟨false, ["tex.png"]⟩ []
        = ⟨makeRelativeTo ⟨false, ["tex.png"]⟩ ⟨true, ["out"]⟩, [], [], none⟩
  ∧ relocStep TexMode.ref ⟨true, ["a"]⟩ ⟨true, ["o"]⟩ ⟨false, ["tex.png"]⟩
        [⟨true, ["a", "tex.png"]⟩]
        = ⟨makeRelativeTo ⟨false, ["tex.png"]⟩ ⟨true, ["a"]⟩,
            [Effect.mkdirs (dirOf (osJoin ⟨true, ["o"]⟩ ⟨false, ["tex.png"]⟩)),
             Effect.copyFile (osJoin ⟨true, ["a"]⟩ ⟨false, ["tex.png"]⟩)
               (osJoin ⟨true, ["o"]⟩ ⟨false, ["tex.png"]⟩)],
            osJoin ⟨true, ["o"]⟩ ⟨false, ["tex.png"]⟩ :: [⟨true, ["a", "tex.png"]⟩], none⟩ :=
  ⟨(c2_self_copy_avoidance TexMode.ref ⟨true, ["out"]⟩ ⟨true, ["out"]⟩
      ⟨false, ["tex.png"]⟩ []).2.1 rfl,
   (c2_self_copy_avoidance TexMode.ref ⟨true, ["a"]⟩ ⟨true, ["o"]⟩ ⟨false, ["tex.png"]⟩
      [⟨true, ["a", "tex.png"]⟩]).2.2 (by decide) (by decide)⟩

/-- Claim C3, counterexample.  The claim states that every nonempty texture
filename is rewritten to be expressed relative to the assets directory,
regardless of prior absolute or relative form.  The absolute filename
/data/tex.png shares no leading component with the assets directory
/assets, so makeRelativeTo leaves it unchanged: after the relocation step
the filename is still the same absolute path, not a path relative to the
assets directory. -/
theorem c3_counterexample :
    (relocStep TexMode.ref ⟨true, ["assets"]⟩ ⟨true, ["out"]⟩
        ⟨true, ["data", "tex.png"]⟩ []).newName = ⟨true, ["data", "tex.png"]⟩
  ∧ ((relocStep TexMode.ref ⟨true, ["assets"]⟩ ⟨true, ["out"]⟩
        ⟨true, ["data", "tex.png"]⟩ []).newName).absolute = true := by
  constructor <;> decide

/-- Claim C3, amended.  Texture references with an empty declared filename
are excluded from relocation entirely; every kept reference has its
filename reassigned to the makeRelativeTo rewrite against the assets
directory; that rewrite leaves a relative filename unchanged, and turns an
absolute filename into a relative one exactly when both paths are nonempty
and absolute and share at least one leading component. -/
theorem c3_amended_rewrite (mode : TexMode) (assetsDir outdir fname : FName)
    (fs : List FName) (texIds : List Nat) (store : Nat → FName) (i : Nat) :
    (i ∈ keptTextures texIds store ↔ i ∈ texIds ∧ store i ≠ emptyF)
  ∧ (relocStep mode assetsDir outdir fname fs).newName = makeRelativeTo fname assetsDir
  ∧ (fname.absolute = false → makeRelativeTo fname assetsDir = fname)
  ∧ (fname.absolute = true → assetsDir.absolute = true → fname.comps ≠ [] →
      assetsDir.comps ≠ [] → relCommon fname assetsDir ≠ 0 →
      (makeRelativeTo fname assetsDir).absolute = false) := by
  refine ⟨?_, relocStep_newName mode assetsDir outdir fname fs, ?_, ?_⟩
  · simp [keptTextures, List.mem_filter]
  · intro h
    exact makeRelativeTo_relative fname assetsDir h
  · intro habs hda hfc hdc hk
    simp [makeRelativeTo, habs, hda, hfc, hdc, hk]

/-- Claim C3, witness for the amended theorem: a relative filename is left
unchanged, and an absolute filename under the assets directory becomes
relative. -/
theorem c3_amended_rewrite_witness :
    makeRelativeTo ⟨false, ["sub", "tex.png"]⟩ ⟨true, ["assets"]⟩
        = ⟨false, ["sub", "tex.png"]⟩
  ∧ (makeRelativeTo ⟨true, ["assets", "tex.png"]⟩ ⟨true, ["assets"]⟩).absolute = false :=
  ⟨(c3_amended_rewrite TexMode.ref ⟨true, ["assets"]⟩ ⟨true, ["out"]⟩
      ⟨false, ["sub", "tex.png"]⟩ [] [] (fun _ => emptyF) 0).2.2.1 rfl,
   (c3_amended_rewrite TexMode.ref ⟨true, ["assets"]⟩ ⟨true, ["out"]⟩
      ⟨true, ["assets", "tex.png"]⟩ [] [] (fun _ => emptyF) 0).2.2.2
      rfl rfl (by decide) (by decide) (by decide)⟩

/-- Claim C4.  The relocation mutates the single shared texture resource:
after a successful run, the store entry of a processed texture identity
holds the rewritten filename, and any two scene nodes referencing that
identity observe exactly the same rewritten filename through the shared
store. -/
theorem c4_aliasing (mode : TexMode) (animMode : AnimMode) (assetsDir outdir dst : FName)
    (texIds : List Nat) (store : Nat → FName) (animNames : List String) (fs : List FName)
    (i : Nat) (n1 n2 : SceneNode)
    (hnd : texIds.Nodup) (hi : i ∈ texIds) (hne : store i ≠ emptyF)
    (hok : (runJob mode animMode assetsDir outdir dst texIds store animNames fs).error = none)
    (h1 : i ∈ n1.texIds) (h2 : i ∈ n2.texIds) :
    nodeObserves (runJob mode animMode assetsDir outdir dst texIds store animNames fs).store
        n1 i = some (makeRelativeTo (store i) assetsDir)
  ∧ nodeObserves (runJob mode animMode assetsDir outdir dst texIds store animNames fs).store
        n1 i
      = nodeObserves (runJob mode animMode assetsDir outdir dst texIds store animNames fs).store
        n2 i := by
  have hok2 : (relocLoop mode assetsDir outdir (keptTextures texIds store) store fs
      [Effect.mkdirs outdir]).error = none := by
    rw [← runJob_error mode animMode assetsDir outdir dst texIds store animNames fs]
    exact hok
  have hkept : i ∈ keptTextures texIds store := by
    simp [keptTextures, hi, hne]
  have hknd : (keptTextures texIds store).Nodup := hnd.filter _
  have hst := relocLoop_store_ok mode assetsDir outdir (keptTextures texIds store) store fs
    [Effect.mkdirs outdir] i hknd hkept hok2
  constructor
  · rw [show nodeObserves (runJob mode animMode assetsDir outdir dst texIds store
        animNames fs).store n1 i
      = some ((runJob mode animMode assetsDir outdir dst texIds store animNames fs).store i)
      from by simp [nodeObserves, h1]]
    rw [runJob_store, hst]
  · simp [nodeObserves, h1, h2]

/-- Claim C4, witness: a job where the shared texture 0, referenced by two
distinct nodes, is rewritten from /assets/tex.png to tex.png, and both
nodes observe the rewritten name. -/
theorem c4_aliasing_witness :
    nodeObserves (runJob TexMode.ref AnimMode.embed ⟨true, ["assets"]⟩ ⟨true, ["assets"]⟩
        ⟨true, ["assets", "m.bam"]⟩ [0] (fun _ => ⟨true, ["assets", "tex.png"]⟩) [] []).store
        ⟨[0]⟩ 0
      = some (makeRelativeTo ⟨true, ["assets", "tex.png"]⟩ ⟨true, ["assets"]⟩)
  ∧ nodeObserves (runJob TexMode.ref AnimMode.embed ⟨true, ["assets"]⟩ ⟨true, ["assets"]⟩
        ⟨true, ["assets", "m.bam"]⟩ [0] (fun _ => ⟨true, ["assets", "tex.png"]⟩) [] []).store
        ⟨[0]⟩ 0
      = nodeObserves (runJob TexMode.ref AnimMode.embed ⟨true, ["assets"]⟩ ⟨true, ["assets"]⟩
        ⟨true, ["assets", "m.bam"]⟩ [0] (fun _ => ⟨true, ["assets", "tex.png"]⟩) [] []).store
        ⟨[0, 1]⟩ 0 :=
  c4_aliasing TexMode.ref AnimMode.embed ⟨true, ["assets"]⟩ ⟨true, ["assets"]⟩
    ⟨true, ["assets", "m.bam"]⟩ [0] (fun _ => ⟨true, ["assets", "tex.png"]⟩) [] [] 0
    ⟨[0]⟩ ⟨[0, 1]⟩ (by decide) (by decide) (by decide) rfl (by decide) (by decide)

/-- Claim C5, counterexample.  The claim states that bundles are processed
in an order sorted by bundle name.  In a scene whose graph traversal
discovers the bundles in the order walk then idle, the artifacts are
written walk-first, which is not the name-sorted order idle then walk. -/
theorem c5_counterexample :
    bamWrites (runJob TexMode.ref AnimMode.separate ⟨true, ["a"]⟩ ⟨true, ["a"]⟩
        ⟨true, ["a", "model.bam"]⟩ [] (fun _ => emptyF) ["walk", "idle"] []).effects
      = [animArtifact ⟨true, ["a", "model.bam"]⟩ "walk",
         animArtifact ⟨true, ["a", "model.bam"]⟩ "idle",
         ⟨true, ["a", "model.bam"]⟩]
  ∧ bamWrites (runJob TexMode.ref AnimMode.separate ⟨true, ["a"]⟩ ⟨true, ["a"]⟩
        ⟨true, ["a", "model.bam"]⟩ [] (fun _ => emptyF) ["walk", "idle"] []).effects
      ≠ [animArtifact ⟨true, ["a", "model.bam"]⟩ "idle",
         animArtifact ⟨true, ["a", "model.bam"]⟩ "walk",
         ⟨true, ["a", "model.bam"]⟩] := by
  constructor <;> decide

/-- Claim C5, amended.  When animation mode is separate and the relocation
loop succeeds, the bam artifacts written are exactly one per discovered
animation bundle, at the destination base without extension followed by an
underscore, the bundle name, a dot and the destination extension, in the
scene-graph discovery order of the bundles rather than sorted by name,
followed by the main artifact at the destination path. -/
theorem c5_amended_separate_artifacts (mode : TexMode) (assetsDir outdir dst : FName)
    (texIds : List Nat) (store : Nat → FName) (animNames : List String) (fs : List FName)
    (hok : (runJob mode AnimMode.separate assetsDir outdir dst texIds store animNames
        fs).error = none) :
    bamWrites (runJob mode AnimMode.separate assetsDir outdir dst texIds store animNames
        fs).effects
      = (animNames.map fun n => animArtifact dst n) ++ [dst] := by
  have hE : (relocLoop mode assetsDir outdir (keptTextures texIds store) store fs
      [Effect.mkdirs outdir]).error = none := by
    rw [← runJob_error mode AnimMode.separate assetsDir outdir dst texIds store animNames fs]
    exact hok
  unfold runJob
  simp only [hE, if_true]
  rw [bamWrites_append, bamWrites_append, relocLoop_bam, bamWrites_anim]
  rfl

/-- Claim C5, witness: destination model.bam with bundles walk and idle
produces exactly the artifacts model_walk.bam, model_idle.bam and
model.bam. -/
theorem c5_amended_separate_artifacts_witness :
    bamWrites (runJob TexMode.ref AnimMode.separate ⟨true, ["a"]⟩ ⟨true, ["a"]⟩
        ⟨true, ["a", "model.bam"]⟩ [] (fun _ => emptyF) ["walk", "idle"] []).effects
      = ((["walk", "idle"] : List String).map
          fun n => animArtifact ⟨true, ["a", "model.bam"]⟩ n) ++ [⟨true, ["a", "model.bam"]⟩] :=
  c5_amended_separate_artifacts TexMode.ref ⟨true, ["a"]⟩ ⟨true, ["a"]⟩
    ⟨true, ["a", "model.bam"]⟩ [] (fun _ => emptyF) ["walk", "idle"] [] rfl

/-- Claim C6.  The two texture-handling modes execute identical relocation
behaviour: for every job input, running under ref produces exactly the same
store rewrites, filesystem, effects and result as running under copy. -/
theorem c6_modes_equal (animMode : AnimMode) (assetsDir outdir dst : FName)
    (texIds : List Nat) (store : Nat → FName) (animNames : List String) (fs : List FName) :
    runJob TexMode.ref animMode assetsDir outdir dst texIds store animNames fs
      = runJob TexMode.copy animMode assetsDir outdir dst texIds store animNames fs := by
  unfold runJob
  rw [relocLoop_mode TexMode.ref TexMode.copy]

/-- Claim C7.  Whenever the relocation step actually performs a file copy,
the destination of that copy equals the output directory joined with the
rewritten filename: a copy only happens when the filename is relative, the
rewrite then leaves it unchanged, so the destination computed before the
rewrite coincides with the output directory joined with the rewritten
relative filename. -/
theorem c7_copy_destination (mode : TexMode) (assetsDir outdir fname : FName)
    (fs : List FName) (s d : FName)
    (h : Effect.copyFile s d ∈ (relocStep mode assetsDir outdir fname fs).effects) :
    d = osJoin outdir ((relocStep mode assetsDir outdir fname fs).newName) := by
  rw [relocStep_eq] at h ⊢
  by_cases hsd : osJoin assetsDir fname = osJoin outdir fname
  · rw [relocBody_self _ _ _ _ hsd] at h
    simp at h
  · have hrel : makeRelativeTo fname assetsDir = fname := by
      apply makeRelativeTo_relative
      cases hb : fname.absolute with
      | false => rfl
      | true =>
        exfalso
        exact hsd (by rw [osJoin_absolute _ _ hb, osJoin_absolute _ _ hb])
    by_cases hm : osJoin assetsDir fname ∈ fs
    · rw [relocBody_copy _ _ _ _ hsd hm] at h ⊢
      simp at h
      rw [h.2]
      simp [hrel]
    · rw [relocBody_missing _ _ _ _ hsd hm] at h
      simp at h

/-- Claim C7, witness: copying tex.png from assets directory /a to output
directory /b lands at /b/tex.png, which is /b joined with the rewritten
filename. -/
theorem c7_copy_destination_witness :
    (⟨true, ["b", "tex.png"]⟩ : FName)
      = osJoin ⟨true, ["b"]⟩ ((relocStep TexMode.copy ⟨true, ["a"]⟩ ⟨true, ["b"]⟩
          ⟨false, ["tex.png"]⟩ [⟨true, ["a", "tex.png"]⟩]).newName) :=
  c7_copy_destination TexMode.copy ⟨true, ["a"]⟩ ⟨true, ["b"]⟩ ⟨false, ["tex.png"]⟩
    [⟨true, ["a", "tex.png"]⟩] ⟨true, ["a", "tex.png"]⟩ ⟨true, ["b", "tex.png"]⟩ (by decide)

/-- Claim C9.  An unsupplied destination defaults to the source string cut
at its last dot with the bam extension appended, and in particular
model.gltf defaults to model.bam; an unsupplied assets directory defaults
to the source file directory; and the output directory is always the
destination file directory. -/
theorem c9_defaults (args : CliArgs) (cwd : FName) :
    (args.dst = "" →
      (resolveJobPaths args cwd).dst = makeAbsolute (parseFName (defaultDst args.src)) cwd)
  ∧ (args.assetsDirArg = none →
      (resolveJobPaths args cwd).assetsDir = dirOf (resolveJobPaths args cwd).src)
  ∧ (resolveJobPaths args cwd).outdir = dirOf (resolveJobPaths args cwd).dst
  ∧ defaultDst "model.gltf" = "model.bam" := by
  refine ⟨?_, ?_, rfl, rfl⟩
  · intro h
    simp [resolveJobPaths, h]
  · intro h
    simp only [resolveJobPaths, h]
    exact makeAbsolute_abs _ _ (by simp [dirOf, makeAbsolute_isAbs])

/-- Claim C9, witness at the invocation with source model.gltf, no
destination and no assets directory. -/
theorem c9_defaults_witness :
    (resolveJobPaths ⟨"model.gltf", "", none⟩ ⟨true, ["cwd"]⟩).dst
        = makeAbsolute (parseFName (defaultDst "model.gltf")) ⟨true, ["cwd"]⟩
  ∧ (resolveJobPaths ⟨"model.gltf", "", none⟩ ⟨true, ["cwd"]⟩).assetsDir
        = dirOf (resolveJobPaths ⟨"model.gltf", "", none⟩ ⟨true, ["cwd"]⟩).src :=
  ⟨(c9_defaults ⟨"model.gltf", "", none⟩ ⟨true, ["cwd"]⟩).1 rfl,
   (c9_defaults ⟨"model.gltf", "", none⟩ ⟨true, ["cwd"]⟩).2.1 rfl⟩

/-- Claim C10.  The default destination cuts the entire source string at
its last dot: a source with no dot gets .bam appended to the whole path,
and the source models.v1/scene, whose only dot lies in the directory part,
yields models.bam rather than models.v1/scene.bam. -/
theorem c10_rsplit_whole_path :
    (∀ s : String, '.' ∉ s.data → defaultDst s = s ++ ".bam")
  ∧ defaultDst "models.v1/scene" = "models.bam" := by
  constructor
  · intro s h
    unfold defaultDst rsplitDotHead
    rw [lastDotSplit_of_no_dot s.data h]
  · rfl

/-- Claim C10, witness: the dotless source scene gets .bam appended. -/
theorem c10_rsplit_whole_path_witness :
    defaultDst "scene" = "scene" ++ ".bam" :=
  c10_rsplit_whole_path.1 "scene" (by decide)

end GltfCli
